import Mathlib

/-!
Verification development for the telegram-bot-api repository (Go package
tgbotapi). The Go source is shallowly embedded: each Go struct becomes a
Lean structure, `*T` pointer fields become `Option T`, Go interface values
holding one of a closed set of struct types become inductive types, and the
relevant Go functions are translated statement by statement into pure Lean
functions. A Go function that can hit a nil-pointer dereference is embedded
with an `Option` result whose `none` marks the panic.
-/

namespace tgbotapi

/-- User mirrors the Go struct User (gift.go): a Telegram user or bot. -/
structure User where
  ID : Int
  IsBot : Bool
  FirstName : String
  LastName : String
  UserName : String
  LanguageCode : String
  IsPremium : Bool
  AddedToAttachmentMenu : Bool
  CanJoinGroups : Bool
  CanReadAllGroupMessages : Bool
  SupportsInlineQueries : Bool
  CanConnectToBusiness : Bool
  HasMainWebApp : Bool
deriving DecidableEq, Repr, Inhabited

/-- Chat mirrors the Go struct Chat (gift.go); only the scalar head fields
are carried, the remaining optional descriptive fields are not needed by
any projection under verification and are summarised by `rest`, an opaque
tag standing for the remaining payload so that distinct chats stay
distinguishable. -/
structure Chat where
  ID : Int
  type_ : String
  Title : String
  UserName : String
  rest : Nat
deriving DecidableEq, Repr, Inhabited

/-- MessageEntity mirrors the Go struct MessageEntity (gift.go). -/
structure MessageEntity where
  type_ : String
  Offset : Int
  Length : Int
  URL : String
  User : Option User
  Language : String
  CustomEmojiID : String
deriving DecidableEq, Repr, Inhabited

/-- RequestFileData mirrors the Go interface RequestFileData together with
its closed set of implementers (part_000): FilePath, FileBytes, FileReader,
FileURL, FileID and the internal fileAttach. A FileReader's io.Reader is
opaque and is represented by a numeric handle. -/
inductive RequestFileData where
  | FilePath (path : String)
  | FileBytes (name : String) (bytes : List Nat)
  | FileReader (name : String) (reader : Nat)
  | FileURL (url : String)
  | FileID (id : String)
  | fileAttach (attach : String)
deriving DecidableEq, Repr, Inhabited

/-- NeedsUpload mirrors the NeedsUpload method of each RequestFileData
implementer (part_000): true for FilePath, FileBytes and FileReader, false
for FileURL, FileID and fileAttach. -/
def RequestFileData.NeedsUpload : RequestFileData → Bool
  | .FilePath _ => true
  | .FileBytes _ _ => true
  | .FileReader _ _ => true
  | .FileURL _ => false
  | .FileID _ => false
  | .fileAttach _ => false

/-- SendData mirrors the SendData methods (part_000): defined only for the
variants that do not need upload; calling it on an upload variant panics in
Go, which is embedded as `none`. -/
def RequestFileData.SendData : RequestFileData → Option String
  | .FilePath _ => none
  | .FileBytes _ _ => none
  | .FileReader _ _ => none
  | .FileURL url => some url
  | .FileID id => some id
  | .fileAttach attach => some attach

/-- RequestFile mirrors the Go struct RequestFile (part_000): a file
associated with a field name. -/
structure RequestFile where
  Name : String
  Data : RequestFileData
deriving DecidableEq, Repr, Inhabited

/-- BaseInputMedia mirrors the Go struct BaseInputMedia (gift.go). -/
structure BaseInputMedia where
  type_ : String
  Media : RequestFileData
  Caption : String
  ParseMode : String
  CaptionEntities : List MessageEntity
deriving DecidableEq, Repr, Inhabited

/-- InputMediaPhoto mirrors the Go struct InputMediaPhoto (gift.go). -/
structure InputMediaPhoto where
  base : BaseInputMedia
deriving DecidableEq, Repr, Inhabited

/-- InputMediaVideo mirrors the Go struct InputMediaVideo (gift.go). -/
structure InputMediaVideo where
  base : BaseInputMedia
  Thumb : Option RequestFileData
  Width : Int
  Height : Int
  Duration : Int
  SupportsStreaming : Bool
deriving DecidableEq, Repr, Inhabited

/-- InputMediaAnimation mirrors the Go struct InputMediaAnimation
(gift.go). Note that the media-group rewriter in part_000 has no case for
this type. -/
structure InputMediaAnimation where
  base : BaseInputMedia
  Thumb : Option RequestFileData
  Width : Int
  Height : Int
  Duration : Int
deriving DecidableEq, Repr, Inhabited

/-- InputMediaAudio mirrors the Go struct InputMediaAudio (gift.go). -/
structure InputMediaAudio where
  base : BaseInputMedia
  Thumb : Option RequestFileData
  Duration : Int
  Performer : String
  Title : String
deriving DecidableEq, Repr, Inhabited

/-- InputMediaDocument mirrors the Go struct InputMediaDocument
(gift.go). -/
structure InputMediaDocument where
  base : BaseInputMedia
  Thumb : Option RequestFileData
  DisableContentTypeDetection : Bool
deriving DecidableEq, Repr, Inhabited

/-- InputMedia represents one element of the Go \x5b\x5dinterface\x7b\x7d
slice handed to the media-group rewriter. The rewriter's type switches
recognise InputMediaPhoto, InputMediaVideo, InputMediaAudio and
InputMediaDocument; `animation` and the opaque `other` cover every value
the switches do not recognise. -/
inductive InputMedia where
  | photo (m : InputMediaPhoto)
  | video (m : InputMediaVideo)
  | animation (m : InputMediaAnimation)
  | audio (m : InputMediaAudio)
  | document (m : InputMediaDocument)
  | other (v : Nat)
deriving DecidableEq, Repr, Inhabited

/-- isStandard is true exactly on the four variants that the rewriter's
type switches match (the Input Media Item variants of the spec). -/
def InputMedia.isStandard : InputMedia → Bool
  | .photo _ => true
  | .video _ => true
  | .audio _ => true
  | .document _ => true
  | .animation _ => false
  | .other _ => false

/-- attachName renders fmt.Sprintf "attach://file-%d" for the primary
media of item idx. -/
def attachName (idx : Nat) : String :=
  "attach://file-" ++ toString idx

/-- attachThumbName renders fmt.Sprintf "attach://file-%d-thumb" for the
thumbnail of item idx. -/
def attachThumbName (idx : Nat) : String :=
  "attach://file-" ++ toString idx ++ "-thumb"

/-- fileFieldName renders fmt.Sprintf "file-%d". -/
def fileFieldName (idx : Nat) : String :=
  "file-" ++ toString idx

/-- prepareInputMediaParam mirrors the Go function of the same name
(part_000): for the four recognised variants it replaces an
upload-requiring Media with fileAttach "attach://file-idx" and, for the
variants that carry one, a present upload-requiring Thumb with
fileAttach "attach://file-idx-thumb", returning the modified copy; any
other value falls through the switch and yields nil (`none`). -/
def prepareInputMediaParam : InputMedia → Nat → Option InputMedia
  | .photo m, idx =>
    let m := if m.base.Media.NeedsUpload then
        { m with base := { m.base with Media := .fileAttach (attachName idx) } }
      else m
    some (.photo m)
  | .video m, idx =>
    let m := if m.base.Media.NeedsUpload then
        { m with base := { m.base with Media := .fileAttach (attachName idx) } }
      else m
    let m := match m.Thumb with
      | some t =>
        if t.NeedsUpload then { m with Thumb := some (.fileAttach (attachThumbName idx)) }
        else m
      | none => m
    some (.video m)
  | .audio m, idx =>
    let m := if m.base.Media.NeedsUpload then
        { m with base := { m.base with Media := .fileAttach (attachName idx) } }
      else m
    let m := match m.Thumb with
      | some t =>
        if t.NeedsUpload then { m with Thumb := some (.fileAttach (attachThumbName idx)) }
        else m
      | none => m
    some (.audio m)
  | .document m, idx =>
    let m := if m.base.Media.NeedsUpload then
        { m with base := { m.base with Media := .fileAttach (attachName idx) } }
      else m
    let m := match m.Thumb with
      | some t =>
        if t.NeedsUpload then { m with Thumb := some (.fileAttach (attachThumbName idx)) }
        else m
      | none => m
    some (.document m)
  | .animation _, _ => none
  | .other _, _ => none

/-- prepareInputMediaFile mirrors the Go function of the same name
(part_000): it collects a RequestFile for each upload-requiring reference
of a recognised variant. Note that in the source the thumbnail part is
appended under the name "file-%d" — not "file-%d-thumb" as the function's
own doc comment and prepareInputMediaParam state. The translation keeps
the source behaviour. -/
def prepareInputMediaFile : InputMedia → Nat → List RequestFile
  | .photo m, idx =>
    let files : List RequestFile := []
    let files := if m.base.Media.NeedsUpload then
        files ++ [{ Name := fileFieldName idx, Data := m.base.Media }]
      else files
    files
  | .video m, idx =>
    let files : List RequestFile := []
    let files := if m.base.Media.NeedsUpload then
        files ++ [{ Name := fileFieldName idx, Data := m.base.Media }]
      else files
    let files := match m.Thumb with
      | some t =>
        if t.NeedsUpload then files ++ [{ Name := fileFieldName idx, Data := t }]
        else files
      | none => files
    files
  | .document m, idx =>
    let files : List RequestFile := []
    let files := if m.base.Media.NeedsUpload then
        files ++ [{ Name := fileFieldName idx, Data := m.base.Media }]
      else files
    let files := match m.Thumb with
      | some t =>
        if t.NeedsUpload then files ++ [{ Name := fileFieldName idx, Data := t }]
        else files
      | none => files
    files
  | .audio m, idx =>
    let files : List RequestFile := []
    let files := if m.base.Media.NeedsUpload then
        files ++ [{ Name := fileFieldName idx, Data := m.base.Media }]
      else files
    let files := match m.Thumb with
      | some t =>
        if t.NeedsUpload then files ++ [{ Name := fileFieldName idx, Data := t }]
        else files
      | none => files
    files
  | .animation _, _ => []
  | .other _, _ => []

/-- rewriteFrom is the loop body of prepareInputMediaForParams (part_000):
newMedia starts as a copy of the input and position idx is overwritten with
prepareInputMediaParam media idx whenever that is non-nil. Expressed
structurally: the element at offset i of the suffix is rewritten with index
idx + i, and kept verbatim when the rewrite yields nil. -/
def rewriteFrom : Nat → List InputMedia → List InputMedia
  | _, [] => []
  | idx, media :: rest =>
    (match prepareInputMediaParam media idx with
      | some param => param
      | none => media) :: rewriteFrom (idx + 1) rest

/-- prepareInputMediaForParams mirrors the Go function of the same name
(part_000): a fresh copy of the slice in which every position idx holds
prepareInputMediaParam media idx when non-nil and the original value
otherwise. -/
def prepareInputMediaForParams (inputMedia : List InputMedia) : List InputMedia :=
  rewriteFrom 0 inputMedia

/-- filesFrom is the loop of prepareInputMediaForFiles (part_000),
carrying the running index: files of the current item (never nil in the
source, possibly empty) are appended in order. -/
def filesFrom : Nat → List InputMedia → List RequestFile
  | _, [] => []
  | idx, media :: rest => prepareInputMediaFile media idx ++ filesFrom (idx + 1) rest

/-- prepareInputMediaForFiles mirrors the Go function of the same name
(part_000). -/
def prepareInputMediaForFiles (inputMedia : List InputMedia) : List RequestFile :=
  filesFrom 0 inputMedia

/-- Message mirrors the head of the Go struct Message (gift.go); the many
remaining optional payload fields are summarised by the opaque tag `rest`,
none of them being read by the projections under verification. From is the
sender (nil for channel posts) and Chat the conversation the message
belongs to. -/
structure Message where
  MessageID : Int
  MessageThreadID : Int
  From : Option User
  SenderChat : Option Chat
  Date : Int
  BusinessConnectionId : String
  Chat : Option Chat
  Text : String
  rest : Nat
deriving DecidableEq, Repr, Inhabited

/-- CallbackQuery mirrors the Go struct CallbackQuery (gift.go). Message,
the message with the callback button, is optional. -/
structure CallbackQuery where
  ID : String
  From : Option User
  Message : Option tgbotapi.Message
  InlineMessageID : String
  ChatInstance : String
  Data : String
  GameShortName : String
deriving DecidableEq, Repr, Inhabited

/-- InlineQuery mirrors the head of the Go struct InlineQuery (gift.go). -/
structure InlineQuery where
  ID : String
  From : Option User
  Query : String
  Offset : String
  ChatType : String
  Location : Option Nat
deriving DecidableEq, Repr, Inhabited

/-- ChosenInlineResult mirrors the Go struct ChosenInlineResult
(gift.go). -/
structure ChosenInlineResult where
  ResultID : String
  From : Option User
  Location : Option Nat
  InlineMessageID : String
  Query : String
deriving DecidableEq, Repr, Inhabited

/-- ShippingQuery mirrors the Go struct ShippingQuery (gift.go); the
shipping address payload is opaque to the projections. -/
structure ShippingQuery where
  ID : String
  From : Option User
  InvoicePayload : String
  ShippingAddress : Option Nat
deriving DecidableEq, Repr, Inhabited

/-- PreCheckoutQuery mirrors the Go struct PreCheckoutQuery (gift.go). -/
structure PreCheckoutQuery where
  ID : String
  From : Option User
  Currency : String
  TotalAmount : Int
  InvoicePayload : String
  ShippingOptionID : String
  OrderInfo : Option Nat
deriving DecidableEq, Repr, Inhabited

/-- PollAnswer mirrors the Go struct PollAnswer (gift.go). -/
structure PollAnswer where
  PollID : String
  VoterChat : Option Chat
  User : Option tgbotapi.User
  OptionIDs : List Int
deriving DecidableEq, Repr, Inhabited

/-- Poll mirrors the head of the Go struct Poll (gift.go); its option and
flag payload is opaque to the projections. -/
structure Poll where
  ID : String
  Question : String
  rest : Nat
deriving DecidableEq, Repr, Inhabited

/-- ChatMemberUpdated mirrors the Go struct ChatMemberUpdated (gift.go);
the old and new ChatMember payloads and the invite link are opaque to the
projections. -/
structure ChatMemberUpdated where
  Chat : Option tgbotapi.Chat
  From : Option User
  Date : Int
  OldChatMember : Option Nat
  NewChatMember : Option Nat
  InviteLink : Option Nat
  ViaJoinRequest : Bool
  ViaChatFolderInviteLink : Bool
deriving DecidableEq, Repr, Inhabited

/-- ChatJoinRequest mirrors the Go struct ChatJoinRequest (gift.go). -/
structure ChatJoinRequest where
  Chat : Option tgbotapi.Chat
  From : Option User
  Date : Int
  Bio : String
  InviteLink : Option Nat
  UserChatID : Int
deriving DecidableEq, Repr, Inhabited

/-- BusinessConnection mirrors the Go struct BusinessConnection
(gift.go). -/
structure BusinessConnection where
  Id : String
  User : Option tgbotapi.User
  UserChatId : Int
  Date : Int
  CanReply : Bool
  IsEnabled : Bool
  Rights : Option Nat
deriving DecidableEq, Repr, Inhabited

/-- BusinessMessagesDeleted mirrors the Go struct BusinessMessagesDeleted
(gift.go). -/
structure BusinessMessagesDeleted where
  BusinessConnectionId : String
  Chat : Option tgbotapi.Chat
  MessageIds : List Int
deriving DecidableEq, Repr, Inhabited

/-- MessageReactionUpdated mirrors the Go struct MessageReactionUpdated
(gift.go); the reaction lists are opaque to the projections. -/
structure MessageReactionUpdated where
  Chat : Option tgbotapi.Chat
  MessageId : Int
  User : Option tgbotapi.User
  ActorChat : Option tgbotapi.Chat
  Date : Int
  OldReaction : List Nat
  NewReaction : List Nat
deriving DecidableEq, Repr, Inhabited

/-- MessageReactionCountUpdated mirrors the Go struct
MessageReactionCountUpdated (gift.go). -/
structure MessageReactionCountUpdated where
  Chat : Option tgbotapi.Chat
  MessageId : Int
  Date : Int
  Reactions : List Nat
deriving DecidableEq, Repr, Inhabited

/-- ChatBoostUpdated mirrors the Go struct ChatBoostUpdated (gift.go). -/
structure ChatBoostUpdated where
  Chat : Option tgbotapi.Chat
  Boost : Option Nat
deriving DecidableEq, Repr, Inhabited

/-- ChatBoostRemoved mirrors the Go struct ChatBoostRemoved (gift.go). -/
structure ChatBoostRemoved where
  Chat : Option tgbotapi.Chat
  BoostId : String
  RemoveDate : Int
  Source : Nat
deriving DecidableEq, Repr, Inhabited

/-- PaidMediaPurchased mirrors the Go struct PaidMediaPurchased
(gift.go). -/
structure PaidMediaPurchased where
  From : Option User
  PaidMediaPayload : String
deriving DecidableEq, Repr, Inhabited

/-- Update mirrors the Go struct Update (gift.go), the inbound event
envelope: every sub-payload is an optional pointer field, in the source
declaration order. -/
structure Update where
  UpdateID : Int
  Message : Option tgbotapi.Message
  EditedMessage : Option tgbotapi.Message
  ChannelPost : Option tgbotapi.Message
  EditedChannelPost : Option tgbotapi.Message
  BusinessConnection : Option tgbotapi.BusinessConnection
  BusinessMessage : Option tgbotapi.Message
  EditedBusinessMessage : Option tgbotapi.Message
  DeletedBusinessMessages : Option BusinessMessagesDeleted
  MessageReaction : Option MessageReactionUpdated
  MessageReactionCount : Option MessageReactionCountUpdated
  InlineQuery : Option tgbotapi.InlineQuery
  ChosenInlineResult : Option tgbotapi.ChosenInlineResult
  CallbackQuery : Option tgbotapi.CallbackQuery
  ShippingQuery : Option tgbotapi.ShippingQuery
  PreCheckoutQuery : Option tgbotapi.PreCheckoutQuery
  PaidMediaPurchased : Option tgbotapi.PaidMediaPurchased
  Poll : Option tgbotapi.Poll
  PollAnswer : Option tgbotapi.PollAnswer
  MyChatMember : Option ChatMemberUpdated
  ChatMember : Option ChatMemberUpdated
  ChatJoinRequest : Option tgbotapi.ChatJoinRequest
  ChatBoost : Option ChatBoostUpdated
  RemovedChatBoost : Option ChatBoostRemoved
  PurchasedPaidMedia : Option tgbotapi.PaidMediaPurchased
deriving DecidableEq, Repr, Inhabited

/-- SentFrom mirrors the Go method Update.SentFrom (gift.go): a switch
over the sub-payloads in source order returning the sender pointer of the
first populated one, nil (`none`) by default. Every branch reads a single
field of an already nil-checked payload, so the Go method cannot panic and
the embedding is total. -/
def Update.SentFrom (u : Update) : Option User :=
  match u.Message with
  | some m => m.From
  | none =>
  match u.EditedMessage with
  | some m => m.From
  | none =>
  match u.ChannelPost with
  | some m => m.From
  | none =>
  match u.EditedChannelPost with
  | some m => m.From
  | none =>
  match u.BusinessConnection with
  | some bc => bc.User
  | none =>
  match u.BusinessMessage with
  | some m => m.From
  | none =>
  match u.EditedBusinessMessage with
  | some m => m.From
  | none =>
  match u.MessageReaction with
  | some mr => mr.User
  | none =>
  match u.InlineQuery with
  | some iq => iq.From
  | none =>
  match u.ChosenInlineResult with
  | some cir => cir.From
  | none =>
  match u.CallbackQuery with
  | some cq => cq.From
  | none =>
  match u.ShippingQuery with
  | some sq => sq.From
  | none =>
  match u.PreCheckoutQuery with
  | some pcq => pcq.From
  | none =>
  match u.PollAnswer with
  | some pa => pa.User
  | none =>
  match u.ChatMember with
  | some cm => cm.From
  | none =>
  match u.ChatJoinRequest with
  | some cjr => cjr.From
  | none => none

/-- FromChat mirrors the Go method Update.FromChat (gift.go): a switch
over the sub-payloads in source order returning the chat pointer of the
first populated one, nil by default. The CallbackQuery branch evaluates
u.CallbackQuery.Message.Chat with no nil check on Message; when Message is
nil the Go method dereferences a nil pointer and panics, embedded here as
the outer `none`. A normal return of the chat pointer c is `some c`. -/
def Update.FromChat (u : Update) : Option (Option Chat) :=
  match u.Message with
  | some m => some m.Chat
  | none =>
  match u.EditedMessage with
  | some m => some m.Chat
  | none =>
  match u.ChannelPost with
  | some m => some m.Chat
  | none =>
  match u.EditedChannelPost with
  | some m => some m.Chat
  | none =>
  match u.BusinessMessage with
  | some m => some m.Chat
  | none =>
  match u.EditedBusinessMessage with
  | some m => some m.Chat
  | none =>
  match u.DeletedBusinessMessages with
  | some dbm => some dbm.Chat
  | none =>
  match u.MessageReaction with
  | some mr => some mr.Chat
  | none =>
  match u.MessageReactionCount with
  | some mrc => some mrc.Chat
  | none =>
  match u.CallbackQuery with
  | some cq =>
    (match cq.Message with
      | some msg => some msg.Chat
      | none => none)
  | none =>
  match u.MyChatMember with
  | some mcm => some mcm.Chat
  | none =>
  match u.ChatMember with
  | some cm => some cm.Chat
  | none =>
  match u.ChatJoinRequest with
  | some cjr => some cjr.Chat
  | none =>
  match u.ChatBoost with
  | some cb => some cb.Chat
  | none =>
  match u.RemovedChatBoost with
  | some rcb => some rcb.Chat
  | none => some none

/-- Modelled from the spec: the Params type itself (the Parameter Mapping
of spec section 3) is not among the source files; only its call sites are.
Per the spec it is a string-to-string mapping, keys unique, last write
wins, insertion order irrelevant, every value already in wire-ready string
form. It is represented as an association list whose insert removes any
earlier binding of the key. -/
def Params : Type := List (String × String)

instance : DecidableEq Params := by
  unfold Params
  infer_instance

/-- insert gives the last-write-wins update of the mapping. -/
def Params.insert (p : Params) (key value : String) : Params :=
  (p.filter fun kv => kv.1 ≠ key) ++ [(key, value)]

/-- lookup finds the value bound to a key, if any. -/
def Params.lookup (p : Params) (key : String) : Option String :=
  List.lookup key p

/-- Modelled from the spec: AddNonZero of the missing Params type
(addIfNonZero of spec section 4.1) inserts the decimal string of the value
only if the value is non-zero. -/
def Params.AddNonZero (p : Params) (key : String) (value : Int) : Params :=
  if value ≠ 0 then p.insert key (toString value) else p

/-- Modelled from the spec: AddNonZero64 behaves as AddNonZero on a 64-bit
integer; Go int and int64 are both embedded as Int. -/
def Params.AddNonZero64 (p : Params) (key : String) (value : Int) : Params :=
  if value ≠ 0 then p.insert key (toString value) else p

/-- Modelled from the spec: AddNonEmpty (addIfNonEmpty of spec section
4.1) inserts only if the string is non-empty. -/
def Params.AddNonEmpty (p : Params) (key value : String) : Params :=
  if value ≠ "" then p.insert key value else p

/-- Modelled from the spec: AddBool (addBool of spec section 4.1) always
inserts the literal "true" or "false" — booleans are never omitted, even
when false; per the spec, the source behaviour always writes the
literal. -/
def Params.AddBool (p : Params) (key : String) (value : Bool) : Params :=
  p.insert key (if value then "true" else "false")

/-- Modelled from the spec: AddFirstValid (addFirstValid of spec section
4.1) at the call-site shape used by BaseChat.params — an integer candidate
then a string candidate — inserts the first non-zero/non-empty one; when
none qualifies it reports InvalidParameterError, which the source call
sites under verification discard, so only the mapping is carried. -/
def Params.AddFirstValid (p : Params) (key : String) (intCand : Int)
    (strCand : String) : Params :=
  if intCand ≠ 0 then p.insert key (toString intCand)
  else if strCand ≠ "" then p.insert key strCand
  else p

/-- Modelled from the spec: AddInterface (addJSON of spec section 4.1) is
one of the typed add-if-present helpers: an absent (nil) nested value adds
nothing, a present one is serialized to JSON text and inserted. Nested
values appear here already pre-serialized to their JSON text, so the
serialization itself cannot fail and the error channel is constantly
nil. -/
def Params.AddInterface (p : Params) (key : String) (value : Option String) : Params :=
  match value with
  | some json => p.insert key json
  | none => p

/-- BaseChat mirrors the Go struct BaseChat (part_000). ReplyMarkup is a
nested JSON-serializable value, carried as its pre-serialized JSON text
per the Parameter Mapping invariant of spec section 3. -/
structure BaseChat where
  ChatID : Int
  ChannelUsername : String
  ProtectContent : Bool
  ReplyToMessageID : Int
  ReplyMarkup : Option String
  DisableNotification : Bool
  AllowSendingWithoutReply : Bool
  BusinessConnectionID : String
  MessageThreadID : Int
deriving DecidableEq, Repr, Inhabited

/-- params mirrors the Go method BaseChat.params (part_000), one helper
call per source line; the AddFirstValid error is discarded by the source
and the AddInterface error is constantly nil in this embedding (see
Params.AddInterface). -/
def BaseChat.params (chat : BaseChat) : Params :=
  let params : Params := []
  let params := params.AddFirstValid "chat_id" chat.ChatID chat.ChannelUsername
  let params := params.AddNonZero "reply_to_message_id" chat.ReplyToMessageID
  let params := params.AddBool "disable_notification" chat.DisableNotification
  let params := params.AddBool "allow_sending_without_reply" chat.AllowSendingWithoutReply
  let params := params.AddBool "protect_content" chat.ProtectContent
  let params := params.AddNonEmpty "business_connection_id" chat.BusinessConnectionID
  let params := params.AddNonZero64 "message_thread_id" chat.MessageThreadID
  params.AddInterface "reply_markup" chat.ReplyMarkup

/-- BaseFile mirrors the Go struct BaseFile (part_000): the embedded
BaseChat plus the primary file. -/
structure BaseFile where
  baseChat : BaseChat
  File : RequestFileData
deriving DecidableEq, Repr, Inhabited

/-- params mirrors the Go method BaseFile.params (part_000): it delegates
to the embedded BaseChat. -/
def BaseFile.params (file : BaseFile) : Params :=
  file.baseChat.params

/-- MessageConfig mirrors the Go struct MessageConfig (part_000); the
nested JSON-serializable reference fields (Entities, LinkPreviewOptions,
ReplyParameters) are carried as their pre-serialized JSON text. -/
structure MessageConfig where
  baseChat : BaseChat
  Text : String
  ParseMode : String
  Entities : Option String
  DisableWebPagePreview : Bool
  LinkPreviewOptions : Option String
  AllowPaidBroadcast : Bool
  ReplyParameters : Option String
  MessageEffectID : String
deriving DecidableEq, Repr, Inhabited

/-- params mirrors the Go method MessageConfig.params (part_000), one
helper call per source line after delegating to BaseChat.params. -/
def MessageConfig.params (config : MessageConfig) : Params :=
  let params := config.baseChat.params
  let params := params.AddNonEmpty "text" config.Text
  let params := params.AddBool "disable_web_page_preview" config.DisableWebPagePreview
  let params := params.AddNonEmpty "parse_mode" config.ParseMode
  let params := params.AddInterface "link_preview_options" config.LinkPreviewOptions
  let params := params.AddBool "allow_paid_broadcast" config.AllowPaidBroadcast
  let params := params.AddInterface "reply_parameters" config.ReplyParameters
  let params := params.AddNonEmpty "message_effect_id" config.MessageEffectID
  params.AddInterface "entities" config.Entities

/-- method mirrors the Go method MessageConfig.method (part_000). -/
def MessageConfig.method (_ : MessageConfig) : String :=
  "sendMessage"

/-- PhotoConfig mirrors the Go struct PhotoConfig (part_000); nested
JSON-serializable reference fields are carried as pre-serialized JSON
text. -/
structure PhotoConfig where
  baseFile : BaseFile
  Thumb : Option RequestFileData
  Caption : String
  ParseMode : String
  CaptionEntities : Option String
  MessageEffectID : String
  ShowCaptionAboveMedia : Bool
  HasSpoiler : Bool
  AllowPaidBroadcast : Bool
  ReplyParameters : Option String
deriving DecidableEq, Repr, Inhabited

/-- params mirrors the Go method PhotoConfig.params (part_000). -/
def PhotoConfig.params (config : PhotoConfig) : Params :=
  let params := config.baseFile.params
  let params := params.AddNonEmpty "caption" config.Caption
  let params := params.AddNonEmpty "parse_mode" config.ParseMode
  let params := params.AddInterface "caption_entities" config.CaptionEntities
  let params := params.AddNonEmpty "message_effect_id" config.MessageEffectID
  let params := params.AddBool "show_caption_above_media" config.ShowCaptionAboveMedia
  let params := params.AddBool "has_spoiler" config.HasSpoiler
  let params := params.AddBool "allow_paid_broadcast" config.AllowPaidBroadcast
  params.AddInterface "reply_parameters" config.ReplyParameters

/-- method mirrors the Go method PhotoConfig.method (part_000). -/
def PhotoConfig.method (_ : PhotoConfig) : String :=
  "sendPhoto"

/-- files mirrors the Go method PhotoConfig.files (part_000): a part
named "photo" wrapping config.File unconditionally, then a part named
"thumb" wrapping the thumbnail whenever one is set — no NeedsUpload check
is made here; the dispatch layer later distinguishes upload parts from
inline ones. -/
def PhotoConfig.files (config : PhotoConfig) : List RequestFile :=
  let files : List RequestFile := [{ Name := "photo", Data := config.baseFile.File }]
  let files := match config.Thumb with
    | some t => files ++ [{ Name := "thumb", Data := t }]
    | none => files
  files

/-- rewriteMediaRef restates the spec for the primary reference of one
item: replaced by the Attachment Placeholder exactly when it requires
upload, kept verbatim otherwise. -/
def rewriteMediaRef (idx : Nat) (r : RequestFileData) : RequestFileData :=
  if r.NeedsUpload then .fileAttach (attachName idx) else r

/-- rewriteThumbRef restates the spec for the thumbnail reference of one
item: replaced by the thumbnail Attachment Placeholder exactly when it is
present and requires upload, kept verbatim otherwise. -/
def rewriteThumbRef (idx : Nat) : Option RequestFileData → Option RequestFileData
  | some t => if t.NeedsUpload then some (.fileAttach (attachThumbName idx)) else some t
  | none => none

/-- mediaRewriteSpec restates the rewritten-items side of the spec for one
Input Media Item at position idx: the media reference rewritten by
rewriteMediaRef, the thumbnail by rewriteThumbRef, every other field
unchanged. The non-standard variants, outside the spec's Input Media Item
set, are left untouched. -/
def mediaRewriteSpec (idx : Nat) : InputMedia → InputMedia
  | .photo m => .photo { m with
      base := { m.base with Media := rewriteMediaRef idx m.base.Media } }
  | .video m => .video { m with
      base := { m.base with Media := rewriteMediaRef idx m.base.Media },
      Thumb := rewriteThumbRef idx m.Thumb }
  | .audio m => .audio { m with
      base := { m.base with Media := rewriteMediaRef idx m.base.Media },
      Thumb := rewriteThumbRef idx m.Thumb }
  | .document m => .document { m with
      base := { m.base with Media := rewriteMediaRef idx m.base.Media },
      Thumb := rewriteThumbRef idx m.Thumb }
  | .animation m => .animation m
  | .other v => .other v

/-- hasUploadRef is true when the item's media reference, or a present
thumbnail reference, requires upload; the `other` variant carries no file
references at all. -/
def InputMedia.hasUploadRef : InputMedia → Bool
  | .photo m => m.base.Media.NeedsUpload
  | .video m => m.base.Media.NeedsUpload ||
      (match m.Thumb with | some t => t.NeedsUpload | none => false)
  | .animation m => m.base.Media.NeedsUpload ||
      (match m.Thumb with | some t => t.NeedsUpload | none => false)
  | .audio m => m.base.Media.NeedsUpload ||
      (match m.Thumb with | some t => t.NeedsUpload | none => false)
  | .document m => m.base.Media.NeedsUpload ||
      (match m.Thumb with | some t => t.NeedsUpload | none => false)
  | .other _ => false

/-- RewriteState makes the two Go slices of prepareInputMediaForParams
explicit for the frame property: inputArr is the caller's backing array
(the function argument), newArr the freshly allocated result array.
Every slice read and write of the source is replayed against this
state. -/
structure RewriteState where
  inputArr : List InputMedia
  newArr : List InputMedia
deriving DecidableEq, Repr

/-- forParamsStep replays one iteration of the loop body of the Go
function prepareInputMediaForParams (part_000): the type switch binds a
copy of the iterated value, so prepareInputMediaParam is a pure function
of it, and the only write, newMedia\x5bidx\x5d = param, targets the fresh
array. -/
def forParamsStep (s : RewriteState) (idx : Nat) (media : InputMedia) : RewriteState :=
  match prepareInputMediaParam media idx with
  | some param => { s with newArr := s.newArr.set idx param }
  | none => s

/-- forParamsLoop replays the range loop of prepareInputMediaForParams:
the iterated values are those of the input slice, idx counts up from
zero. -/
def forParamsLoop : RewriteState → Nat → List InputMedia → RewriteState
  | s, _, [] => s
  | s, idx, media :: rest => forParamsLoop (forParamsStep s idx media) (idx + 1) rest

/-- prepareInputMediaForParamsST is the state-explicit rendering of the Go
function prepareInputMediaForParams: make plus copy initialise the fresh
array to the input, then the loop runs over the input values. -/
def prepareInputMediaForParamsST (inputMedia : List InputMedia) : RewriteState :=
  forParamsLoop { inputArr := inputMedia, newArr := inputMedia } 0 inputMedia

/-- sentFromOrder lists, in the priority order stated by the spec, each
sub-payload scanned by SentFrom as populated-or-not together with its
sender field. -/
def sentFromOrder (u : Update) : List (Option (Option User)) :=
  [u.Message.map Message.From,
   u.EditedMessage.map Message.From,
   u.ChannelPost.map Message.From,
   u.EditedChannelPost.map Message.From,
   u.BusinessConnection.map BusinessConnection.User,
   u.BusinessMessage.map Message.From,
   u.EditedBusinessMessage.map Message.From,
   u.MessageReaction.map MessageReactionUpdated.User,
   u.InlineQuery.map InlineQuery.From,
   u.ChosenInlineResult.map ChosenInlineResult.From,
   u.CallbackQuery.map CallbackQuery.From,
   u.ShippingQuery.map ShippingQuery.From,
   u.PreCheckoutQuery.map PreCheckoutQuery.From,
   u.PollAnswer.map PollAnswer.User,
   u.ChatMember.map ChatMemberUpdated.From,
   u.ChatJoinRequest.map ChatJoinRequest.From]

/-- firstPopulatedSender returns the sender carried by the first populated
entry of a priority list, and nil when no entry is populated. -/
def firstPopulatedSender : List (Option (Option User)) → Option User
  | [] => none
  | some sender :: _ => sender
  | none :: rest => firstPopulatedSender rest

/-- sentFromSpec restates the spec's sender projection: scan the
sub-payloads in the fixed priority order and return the sender of the
first populated one, nil when none is populated. -/
def sentFromSpec (u : Update) : Option User :=
  firstPopulatedSender (sentFromOrder u)

/-- onlyMyChatMember builds the envelope whose only populated sub-payload
is the bot's-own-membership update my_chat_member. -/
def onlyMyChatMember (cm : ChatMemberUpdated) : Update :=
  { (default : Update) with MyChatMember := some cm }

/-- videoMediaAndThumb is a media-group item whose media and thumbnail are
both local paths, hence both require upload. -/
def videoMediaAndThumb : InputMedia :=
  .video { base := { type_ := "video", Media := .FilePath "tests/video.mp4",
                     Caption := "", ParseMode := "", CaptionEntities := [] },
           Thumb := some (.FilePath "tests/image.jpg"),
           Width := 0, Height := 0, Duration := 0, SupportsStreaming := false }

/-- photoByFileID is a media-group item sent by platform file identifier,
requiring no upload. -/
def photoByFileID : InputMedia :=
  .photo { base := { type_ := "photo", Media := .FileID "AgACAgIAAxk",
                     Caption := "pic", ParseMode := "", CaptionEntities := [] } }

/-- videoByURLThumbByID is a media-group item whose media is a remote URL
and whose thumbnail is a platform file identifier, so nothing requires
upload. -/
def videoByURLThumbByID : InputMedia :=
  .video { base := { type_ := "video", Media := .FileURL "https://example.com/v.mp4",
                     Caption := "", ParseMode := "", CaptionEntities := [] },
           Thumb := some (.FileID "BAACAgIAAxk"),
           Width := 640, Height := 480, Duration := 10, SupportsStreaming := true }

/-- animationUploadItem is an InputMediaAnimation value with an
upload-requiring media reference; the rewriter's type switches do not
recognise this type. -/
def animationUploadItem : InputMedia :=
  .animation { base := { type_ := "animation", Media := .FilePath "tests/anim.gif",
                         Caption := "", ParseMode := "", CaptionEntities := [] },
               Thumb := none, Width := 0, Height := 0, Duration := 0 }

/-- callbackNoMessage is the envelope whose only populated sub-payload is
a callback query that carries no message (a query on a message too old,
or sent via inline mode). -/
def callbackNoMessage : Update :=
  { (default : Update) with
    UpdateID := 1,
    CallbackQuery := some { ID := "q1", From := some (default : User),
                            Message := none, InlineMessageID := "im1",
                            ChatInstance := "ci", Data := "d", GameShortName := "" } }

/-- photoURLWithPathThumb is the scenario-B request: primary media a remote
URL, thumbnail a local path. -/
def photoURLWithPathThumb : PhotoConfig :=
  { (default : PhotoConfig) with
    baseFile := { baseChat := (default : BaseChat),
                  File := .FileURL "https://example.com/a.jpg" },
    Thumb := some (.FilePath "tests/thumb.jpg") }

/-- msgOnlyChat42 is the scenario-A request: a message request whose only
populated field is the integer chat target 42. -/
def msgOnlyChat42 : MessageConfig :=
  { (default : MessageConfig) with baseChat := { (default : BaseChat) with ChatID := 42 } }

/-- C1: evaluation of the file-part output at the failing input. For the
single-item list whose video requires upload of both media and thumbnail,
prepareInputMediaForFiles emits two parts BOTH named "file-0": the
thumbnail part is not named "file-0-thumb" as the claim (and the source's
own doc comment, and the placeholder written by prepareInputMediaParam)
states, because prepareInputMediaFile appends the thumbnail under
fmt.Sprintf "file-%d". -/
theorem C1_thumb_part_misnamed :
    prepareInputMediaForFiles [videoMediaAndThumb] =
      [{ Name := "file-0", Data := .FilePath "tests/video.mp4" },
       { Name := "file-0", Data := .FilePath "tests/image.jpg" }] ∧
    (prepareInputMediaForFiles [videoMediaAndThumb]).map RequestFile.Name =
      ["file-0", "file-0"] := by
  constructor <;> rfl

/-- C2: evaluation of FromChat at the failing input. On an envelope whose
only populated sub-payload is a callback query carrying no message, the Go
method evaluates u.CallbackQuery.Message.Chat and dereferences the nil
Message pointer; the embedding returns the panic marker `none` instead of
a normal `some` result, refuting totality of the projection. -/
theorem C2_fromChat_panics_on_messageless_callback :
    Update.FromChat callbackNoMessage = none ∧
    ∀ c : Option Chat, Update.FromChat callbackNoMessage ≠ some c := by
  constructor
  · rfl
  · intro c h
    simp [Update.FromChat, callbackNoMessage] at h

/-- C3 counterexample: the scenario-B request (remote-URL media, local
path thumbnail) yields two Named File Parts, not one, and its first part
wraps the URL reference, which does not require upload — refuting both
the single-part count and the every-part-requires-upload invariant. -/
theorem C3_counterexample :
    photoURLWithPathThumb.files.length = 2 ∧
    photoURLWithPathThumb.files.map (fun f => f.Data.NeedsUpload) = [false, true] := by
  constructor <;> rfl

/-- C3 amended: PhotoConfig.files always emits a part named "photo"
wrapping the primary media, followed by a part named "thumb" wrapping the
thumbnail exactly when one is set, with no NeedsUpload filtering; in
scenario B that is two parts of which only the thumbnail's requires
upload. -/
theorem C3_files_shape (config : PhotoConfig) :
    config.files = { Name := "photo", Data := config.baseFile.File } ::
      (match config.Thumb with
        | some t => [{ Name := "thumb", Data := t }]
        | none => []) := by
  unfold PhotoConfig.files
  cases config.Thumb <;> rfl

/-- C4 counterexample: under the spec's always-insert addBool, the
parameters of the chat-target-42 request bind "chat_id" to "42" but also
bind "disable_notification" to "false", so the mapping is not exactly
the single pair claimed. -/
theorem C4_counterexample :
    (msgOnlyChat42.params).lookup "chat_id" = some "42" ∧
    (msgOnlyChat42.params).lookup "disable_notification" = some "false" := by
  constructor <;> rfl

/-- C4 amended: the chat-target-42 request builds the mapping holding
"chat_id" at "42" together with exactly the five unconditionally inserted
boolean fields of BaseChat.params and MessageConfig.params, each at
"false", and nothing else; MessageConfig exposes no files method, so the
request carries no Named File Parts. -/
theorem C4_params_of_chat42 :
    msgOnlyChat42.params =
      [("chat_id", "42"),
       ("disable_notification", "false"),
       ("allow_sending_without_reply", "false"),
       ("protect_content", "false"),
       ("disable_web_page_preview", "false"),
       ("allow_paid_broadcast", "false")] := by
  rfl

/-- C10: an envelope whose only populated sub-payload is my_chat_member
has no sender under SentFrom (which never scans my_chat_member) while
FromChat returns normally with exactly that sub-payload's chat — the two
projections scan different sub-payload sets. -/
theorem C10_myChatMember_chat_scan_only (cm : ChatMemberUpdated) :
    (onlyMyChatMember cm).SentFrom = none ∧
    (onlyMyChatMember cm).FromChat = some cm.Chat := by
  constructor <;> rfl

/-- C5: SentFrom inspects the sub-payloads in exactly the claimed priority
order — message, edited message, channel post, edited channel post,
business connection, business message, edited business message, message
reaction, inline query, chosen inline result, callback query, shipping
query, pre-checkout query, poll answer, chat-member update, join request —
returning the sender of the first populated one and nil when none is
populated, as the order-explicit restatement sentFromSpec. -/
theorem C5_sentFrom_scans_in_priority_order (u : Update) :
    u.SentFrom = sentFromSpec u := by
  obtain ⟨_, msg, emsg, chp, echp, bc, bm, ebm, dbm, mr, mrc, iq, cir, cq, sq,
    pcq, pmp, pl, pa, mcm, cm, cjr, cb, rcb, ppm⟩ := u
  simp only [Update.SentFrom, sentFromSpec, sentFromOrder]
  cases msg <;> simp [firstPopulatedSender]
  cases emsg <;> simp [firstPopulatedSender]
  cases chp <;> simp [firstPopulatedSender]
  cases echp <;> simp [firstPopulatedSender]
  cases bc <;> simp [firstPopulatedSender]
  cases bm <;> simp [firstPopulatedSender]
  cases ebm <;> simp [firstPopulatedSender]
  cases mr <;> simp [firstPopulatedSender]
  cases iq <;> simp [firstPopulatedSender]
  cases cir <;> simp [firstPopulatedSender]
  cases cq <;> simp [firstPopulatedSender]
  cases sq <;> simp [firstPopulatedSender]
  cases pcq <;> simp [firstPopulatedSender]
  cases pa <;> simp [firstPopulatedSender]
  cases cm <;> simp [firstPopulatedSender]
  cases cjr <;> simp [firstPopulatedSender]

/-- paramExtract_eq_spec settles one loop iteration: on the four standard
variants, taking prepareInputMediaParam when non-nil and the original item
otherwise yields exactly the spec-side rewrite of the item. -/
theorem paramExtract_eq_spec (m : InputMedia) (idx : Nat) (h : m.isStandard = true) :
    (match prepareInputMediaParam m idx with
      | some param => param
      | none => m) = mediaRewriteSpec idx m := by
  cases m with
  | photo p =>
    obtain ⟨base⟩ := p
    cases hm : base.Media.NeedsUpload <;>
      simp [prepareInputMediaParam, mediaRewriteSpec, rewriteMediaRef, hm]
  | video v =>
    obtain ⟨base, thumb, w, hgt, dur, ss⟩ := v
    cases thumb with
    | none =>
      cases hm : base.Media.NeedsUpload <;>
        simp [prepareInputMediaParam, mediaRewriteSpec, rewriteMediaRef, rewriteThumbRef, hm]
    | some t =>
      cases hm : base.Media.NeedsUpload <;> cases ht : t.NeedsUpload <;>
        simp [prepareInputMediaParam, mediaRewriteSpec, rewriteMediaRef, rewriteThumbRef, hm, ht]
  | audio a =>
    obtain ⟨base, thumb, dur, pf, ti⟩ := a
    cases thumb with
    | none =>
      cases hm : base.Media.NeedsUpload <;>
        simp [prepareInputMediaParam, mediaRewriteSpec, rewriteMediaRef, rewriteThumbRef, hm]
    | some t =>
      cases hm : base.Media.NeedsUpload <;> cases ht : t.NeedsUpload <;>
        simp [prepareInputMediaParam, mediaRewriteSpec, rewriteMediaRef, rewriteThumbRef, hm, ht]
  | document d =>
    obtain ⟨base, thumb, dc⟩ := d
    cases thumb with
    | none =>
      cases hm : base.Media.NeedsUpload <;>
        simp [prepareInputMediaParam, mediaRewriteSpec, rewriteMediaRef, rewriteThumbRef, hm]
    | some t =>
      cases hm : base.Media.NeedsUpload <;> cases ht : t.NeedsUpload <;>
        simp [prepareInputMediaParam, mediaRewriteSpec, rewriteMediaRef, rewriteThumbRef, hm, ht]
  | animation a => simp [InputMedia.isStandard] at h
  | other v => simp [InputMedia.isStandard] at h

/-- rewriteFrom_eq_spec extends paramExtract_eq_spec along the list for an
arbitrary starting index. -/
theorem rewriteFrom_eq_spec (l : List InputMedia) (h : ∀ m ∈ l, m.isStandard = true) :
    ∀ k : Nat, rewriteFrom k l = (l.enumFrom k).map fun p => mediaRewriteSpec p.1 p.2 := by
  induction l with
  | nil => intro k; rfl
  | cons m rest ih =>
    intro k
    have hm : m.isStandard = true := h m (List.mem_cons_self m rest)
    have hrest : ∀ x ∈ rest, x.isStandard = true := fun x hx => h x (List.mem_cons_of_mem m hx)
    simp only [rewriteFrom, List.enumFrom, List.map_cons]
    exact congrArg₂ List.cons (paramExtract_eq_spec m k hm) (ih hrest (k + 1))

/-- C6: on every list of Input Media Items (the four standard variants),
the rewritten-items output replaces each item's media reference with
attach://file-i exactly when it requires upload and its thumbnail
reference with attach://file-i-thumb exactly when present and requiring
upload, leaving all other fields unchanged — item by item, the 0-based
position-indexed spec rewrite. -/
theorem C6_params_rewrite_matches_spec (l : List InputMedia)
    (h : ∀ m ∈ l, m.isStandard = true) :
    prepareInputMediaForParams l = l.enum.map fun p => mediaRewriteSpec p.1 p.2 := by
  unfold prepareInputMediaForParams List.enum
  exact rewriteFrom_eq_spec l h 0

/-- C6 witness: the theorem applied to a two-item group, a photo by file
identifier followed by a video with uploadable media and thumbnail. -/
theorem C6_witness :
    (∀ m ∈ ([photoByFileID, videoMediaAndThumb] : List InputMedia), m.isStandard = true) ∧
    prepareInputMediaForParams [photoByFileID, videoMediaAndThumb] =
      ([photoByFileID, videoMediaAndThumb].enum.map fun p => mediaRewriteSpec p.1 p.2) :=
  ⟨by decide, C6_params_rewrite_matches_spec _ (by decide)⟩

/-- file_nil_of_no_upload settles one item: when neither its media nor a
present thumbnail requires upload, prepareInputMediaFile contributes no
part. -/
theorem file_nil_of_no_upload (m : InputMedia) (h : m.hasUploadRef = false) (idx : Nat) :
    prepareInputMediaFile m idx = [] := by
  cases m with
  | photo p =>
    simp only [InputMedia.hasUploadRef] at h
    simp [prepareInputMediaFile, h]
  | video v =>
    obtain ⟨base, thumb, w, hgt, dur, ss⟩ := v
    cases thumb with
    | none =>
      simp only [InputMedia.hasUploadRef, Bool.or_false] at h
      simp [prepareInputMediaFile, h]
    | some t =>
      simp only [InputMedia.hasUploadRef, Bool.or_eq_false_iff] at h
      simp [prepareInputMediaFile, h.1, h.2]
  | audio a =>
    obtain ⟨base, thumb, dur, pf, ti⟩ := a
    cases thumb with
    | none =>
      simp only [InputMedia.hasUploadRef, Bool.or_false] at h
      simp [prepareInputMediaFile, h]
    | some t =>
      simp only [InputMedia.hasUploadRef, Bool.or_eq_false_iff] at h
      simp [prepareInputMediaFile, h.1, h.2]
  | document d =>
    obtain ⟨base, thumb, dc⟩ := d
    cases thumb with
    | none =>
      simp only [InputMedia.hasUploadRef, Bool.or_false] at h
      simp [prepareInputMediaFile, h]
    | some t =>
      simp only [InputMedia.hasUploadRef, Bool.or_eq_false_iff] at h
      simp [prepareInputMediaFile, h.1, h.2]
  | animation a => rfl
  | other v => rfl

/-- filesFrom_nil_of_no_upload extends file_nil_of_no_upload along the
list for an arbitrary starting index. -/
theorem filesFrom_nil_of_no_upload (l : List InputMedia)
    (h : ∀ m ∈ l, m.hasUploadRef = false) :
    ∀ k : Nat, filesFrom k l = [] := by
  induction l with
  | nil => intro k; rfl
  | cons m rest ih =>
    intro k
    have hm := h m (List.mem_cons_self m rest)
    have hrest : ∀ x ∈ rest, x.hasUploadRef = false := fun x hx => h x (List.mem_cons_of_mem m hx)
    simp [filesFrom, file_nil_of_no_upload m hm k, ih hrest (k + 1)]

/-- C7: when no item of the group has a media or thumbnail reference
requiring upload, the file-part output of the Media-Group Rewriter is
empty. -/
theorem C7_no_upload_no_file_parts (l : List InputMedia)
    (h : ∀ m ∈ l, m.hasUploadRef = false) :
    prepareInputMediaForFiles l = [] :=
  filesFrom_nil_of_no_upload l h 0

/-- C7 witness: the theorem applied to a group holding a photo by file
identifier and a video by URL with a file-identifier thumbnail. -/
theorem C7_witness :
    (∀ m ∈ ([photoByFileID, videoByURLThumbByID] : List InputMedia),
      m.hasUploadRef = false) ∧
    prepareInputMediaForFiles [photoByFileID, videoByURLThumbByID] = [] :=
  ⟨by decide, C7_no_upload_no_file_parts _ (by decide)⟩

/-- rewriteFromGetEq gives the element of the rewritten sequence at each
position: the original element put through one loop iteration at the
offset index. -/
theorem rewriteFromGetEq (l : List InputMedia) : ∀ k i : Nat,
    (rewriteFrom k l)[i]? = (l[i]?).map fun m =>
      match prepareInputMediaParam m (k + i) with
      | some param => param
      | none => m := by
  induction l with
  | nil => intro k i; simp [rewriteFrom]
  | cons m rest ih =>
    intro k i
    cases i with
    | zero => simp [rewriteFrom]
    | succ j =>
      have hk : k + 1 + j = k + (j + 1) := by omega
      simp [rewriteFrom, ih (k + 1) j, hk]

/-- C9: an item whose variant the rewriter does not recognise (anything
outside photo, video, audio, document — e.g. InputMediaAnimation) is kept
verbatim at its position in the rewritten sequence and contributes no file
part; both functions return normally, there is no error path. -/
theorem C9_unknown_variant_passthrough (l : List InputMedia) (i : Nat) (m : InputMedia)
    (hm : l[i]? = some m) (hstd : m.isStandard = false) :
    (prepareInputMediaForParams l)[i]? = some m ∧ prepareInputMediaFile m i = [] := by
  have hnone : prepareInputMediaParam m i = none := by
    cases m <;> simp_all [InputMedia.isStandard, prepareInputMediaParam]
  constructor
  · unfold prepareInputMediaForParams
    rw [rewriteFromGetEq l 0 i, hm]
    simp [hnone]
  · cases m <;> simp_all [InputMedia.isStandard, prepareInputMediaFile]

/-- C9 witness: the theorem applied to the single-item group holding an
InputMediaAnimation with an uploadable media reference. -/
theorem C9_witness :
    ([animationUploadItem] : List InputMedia)[0]? = some animationUploadItem ∧
    animationUploadItem.isStandard = false ∧
    ((prepareInputMediaForParams [animationUploadItem])[0]? = some animationUploadItem ∧
      prepareInputMediaFile animationUploadItem 0 = []) :=
  ⟨rfl, rfl, C9_unknown_variant_passthrough _ 0 _ rfl rfl⟩

/-- set_length_append evaluates a store through the fresh array at the
position right after a done prefix. -/
theorem set_length_append (done : List InputMedia) (m p : InputMedia)
    (rest : List InputMedia) :
    (done ++ m :: rest).set done.length p = done ++ p :: rest := by
  induction done with
  | nil => rfl
  | cons a as ih => simp [List.set, ih]

/-- forParamsLoop_go is the loop invariant of the state-explicit
rewriter: with the first done.length positions of the fresh array already
rewritten, running the loop over the remaining items rewrites exactly the
remaining positions and never writes through the caller's array. -/
theorem forParamsLoop_go (rest : List InputMedia) : ∀ done inp : List InputMedia,
    forParamsLoop { inputArr := inp, newArr := done ++ rest } done.length rest =
      { inputArr := inp, newArr := done ++ rewriteFrom done.length rest } := by
  induction rest with
  | nil => intro done inp; rfl
  | cons m r ih =>
    intro done inp
    simp only [forParamsLoop, forParamsStep, rewriteFrom]
    cases hp : prepareInputMediaParam m done.length with
    | none =>
      have h2 := ih (done ++ [m]) inp
      simpa [List.append_assoc] using h2
    | some p =>
      dsimp only
      rw [set_length_append]
      have h2 := ih (done ++ [p]) inp
      simpa [List.append_assoc] using h2

/-- C8: the state-explicit rendering of the rewriter leaves the caller's
array exactly as it was handed in — the type switch copies each item value
and the single write of the loop targets the freshly allocated array —
and that fresh array is the rewritten sequence; the file-part pass
prepareInputMediaForFiles is a pure fold over the same values and performs
no write at all. -/
theorem C8_rewriter_preserves_input (l : List InputMedia) :
    (prepareInputMediaForParamsST l).inputArr = l ∧
    (prepareInputMediaForParamsST l).newArr = prepareInputMediaForParams l := by
  have h := forParamsLoop_go l [] l
  simp only [List.nil_append, List.length_nil] at h
  unfold prepareInputMediaForParamsST prepareInputMediaForParams
  rw [h]
  exact ⟨rfl, rfl⟩

/-- C3 witness: the amended shape theorem applied to the scenario-B
request. -/
theorem C3_files_shape_witness :
    photoURLWithPathThumb.files =
      { Name := "photo", Data := photoURLWithPathThumb.baseFile.File } ::
        (match photoURLWithPathThumb.Thumb with
          | some t => [{ Name := "thumb", Data := t }]
          | none => []) :=
  C3_files_shape photoURLWithPathThumb

/-- C5 witness: the priority-order theorem applied to the empty default
envelope. -/
theorem C5_witness :
    (default : Update).SentFrom = sentFromSpec (default : Update) :=
  C5_sentFrom_scans_in_priority_order (default : Update)

/-- C8 witness: the frame theorem applied to the single-item group whose
video has uploadable media and thumbnail. -/
theorem C8_witness :
    (prepareInputMediaForParamsST [videoMediaAndThumb]).inputArr = [videoMediaAndThumb] ∧
    (prepareInputMediaForParamsST [videoMediaAndThumb]).newArr =
      prepareInputMediaForParams [videoMediaAndThumb] :=
  C8_rewriter_preserves_input [videoMediaAndThumb]

/-- C10 witness: the theorem applied to the default membership-update
payload. -/
theorem C10_witness :
    (onlyMyChatMember (default : ChatMemberUpdated)).SentFrom = none ∧
    (onlyMyChatMember (default : ChatMemberUpdated)).FromChat =
      some (default : ChatMemberUpdated).Chat :=
  C10_myChatMember_chat_scan_only (default : ChatMemberUpdated)

end tgbotapi
